import Mathlib

/-!
Shallow embedding of the ApiRace request-racing client (src/src/locales.ts).

The embedding models the parts of the code the verified properties are about:
the provider descriptor (name, optional priority, declared response type), the
priority-insertion ordering of ApiRace.orderProviders, the normalization of the
two accepted provider-collection shapes, the per-attempt timeout race of
ApiRace.request, the response normalization of ApiRace.parseResponse, and the
sequential fallback loop of ApiRace.run.  The HTTP transport (fetch or the
proxy override) is abstracted as a function from a provider to a deterministic
behavior: a settle time together with either a rejection message or a raw
response.  JavaScript truthiness of optional numeric options (undefined and 0
are both falsy) is modeled explicitly, because the source branches on it.
-/

/-- A JSON-like value: the result of reading a response body with res.json(),
or the payload object built by the response normalizer. -/
inductive JsonValue where
  | null
  | bool (b : Bool)
  | num (n : Int)
  | str (s : String)
  | arr (items : List JsonValue)
  | obj (fields : List (String × JsonValue))

/-- One entry value of a parsed form body: a plain text field or a file entry.
Models the FormDataEntryValue union (string or File) of the transport. -/
inductive FormValue where
  | text (s : String)
  | file (name : String)
deriving DecidableEq, Repr

/-- JavaScript coercion of a form entry value to a string: the source calls
value.toString() on each entry; a File object stringifies to "[object File]". -/
def FormValue.toStr : FormValue → String
  | .text s => s
  | .file _ => "[object File]"

/-- The provider descriptor (class ApiProvider), restricted to the fields the
verified properties consult: the diagnostic name, the optional priority and the
declared response content type.  The response type is a string because the
source dispatches on string literals with a default branch for anything else. -/
structure ApiProvider where
  name : String
  priority : Option Nat
  responseType : String
deriving DecidableEq, Repr

/-- A raw transport response (the Response object): numeric status, the header
entries in iteration order, and the outcome of each body-reading operation.
jsonBody is what res.json() yields (error when the body is not valid JSON),
textBody is what res.text() yields, formBody is what res.formData() yields. -/
structure RawResponse where
  status : Nat
  headers : List (String × String)
  jsonBody : Except String JsonValue
  textBody : String
  formBody : Except String (List (String × FormValue))

/-- The normalized result of a successful race (interface ProviderResponse). -/
structure ProviderResponse where
  payload : JsonValue
  provider : String
  responseStatus : Nat
  responseHeaders : List (String × String)

/-- The errors the coordinator can produce: a transport rejection carrying its
message, a body-read rejection, the per-attempt timeout (Request timeout), the
two unsupported content types, the unknown content type, and the terminal
No providers available error thrown when the loop finishes without a result. -/
inductive RaceError where
  | transport (msg : String)
  | bodyRead (msg : String)
  | timeout
  | octetNotSupported
  | protobufNotSupported
  | invalidResponseType
  | noProviders
deriving DecidableEq, Repr

/-- Assignment d[key] = val on a JavaScript object modeled as an association
list in key-insertion order: an existing key is overwritten in place, a new key
is appended. -/
def dictSet (d : List (String × String)) (key val : String) :
    List (String × String) :=
  if d.any (fun e => e.1 == key) then
    d.map (fun e => if e.1 == key then (key, val) else e)
  else d ++ [(key, val)]

/-- Header collection: for (key, value) of res.headers.entries(), assign
responseHeaders[key] = value.  Identical in every branch of parseResponse. -/
def collectHeaders (entries : List (String × String)) :
    List (String × String) :=
  entries.foldl (fun acc e => dictSet acc e.1 e.2) []

/-- Assignment on the payload object of the form-urlencoded branch. -/
def dictSetJ (d : List (String × JsonValue)) (key : String) (val : JsonValue) :
    List (String × JsonValue) :=
  if d.any (fun e => e.1 == key) then
    d.map (fun e => if e.1 == key then (key, val) else e)
  else d ++ [(key, val)]

/-- Payload of the form-urlencoded branch: for (key, value) of
responseBody.entries(), assign payload[key] = value.toString(). -/
def formPayload (entries : List (String × FormValue)) :
    List (String × JsonValue) :=
  entries.foldl (fun acc e => dictSetJ acc e.1 (.str e.2.toStr)) []

/-- Which body-reading operations of the Response a parse performed. -/
inductive BodyRead where
  | jsonRead
  | textRead
  | formRead
deriving DecidableEq, Repr

/-- ApiRace.parseResponse: dispatch on the declared responseType string,
produce the normalized ProviderResponse or the branch error, and record which
body-reading operations ran.  Branches in source order of the switch. -/
def parseResponse (res : RawResponse) (provider : ApiProvider) :
    Except RaceError ProviderResponse × List BodyRead :=
  if provider.responseType == "application/json" then
    match res.jsonBody with
    | .error msg => (.error (.bodyRead msg), [.jsonRead])
    | .ok payload =>
      (.ok { payload := payload, provider := provider.name,
             responseStatus := res.status,
             responseHeaders := collectHeaders res.headers }, [.jsonRead])
  else if provider.responseType == "application/octet-stream" then
    (.error .octetNotSupported, [])
  else if provider.responseType == "application/x-www-form-urlencoded" then
    match res.formBody with
    | .error msg => (.error (.bodyRead msg), [.formRead])
    | .ok entries =>
      (.ok { payload := .obj (formPayload entries), provider := provider.name,
             responseStatus := res.status,
             responseHeaders := collectHeaders res.headers }, [.formRead])
  else if provider.responseType == "text/plain" then
    (.ok { payload := .obj [("$text", .str res.textBody)],
           provider := provider.name,
           responseStatus := res.status,
           responseHeaders := collectHeaders res.headers }, [.textRead])
  else if provider.responseType == "x-application/protobuf" then
    (.error .protobufNotSupported, [])
  else if provider.responseType == "text/xml" then
    (.ok { payload := .obj [("$xml", .str res.textBody)],
           provider := provider.name,
           responseStatus := res.status,
           responseHeaders := collectHeaders res.headers }, [.textRead])
  else (.error .invalidResponseType, [])

/-- The modeled behavior of one transport call (fetch or the proxy override)
for a given provider: the time at which the returned promise settles, and the
outcome when it does (a rejection message or a raw response). -/
structure TransportSpec where
  settleTime : Nat
  outcome : Except String RawResponse

/-- JavaScript truthiness of an optional numeric option: undefined and 0 are
falsy.  The source tests this on provider.priority and on timeoutPerAttempt. -/
def numOptTruthy : Option Nat → Bool
  | none => false
  | some n => n != 0

/-- Everything one attempt observably does: whether the transport call was
issued with a cancellation signal, whether the signal was aborted before the
transport settled, which body reads ran, and the result. -/
structure AttemptOutcome where
  signalIssued : Bool
  aborted : Bool
  bodyReads : List BodyRead
  result : Except RaceError ProviderResponse

/-- ApiRace.request: when the timeoutPerAttempt option is falsy the transport
is called without a signal and its outcome decides the attempt; when truthy
the transport is called with a cancellation signal and raced against a timer
of that duration: the timer wins exactly when it expires strictly before the
transport settles, aborting the signal and failing with the timeout error. -/
def requestAttempt (timeoutPerAttempt : Option Nat)
    (transport : ApiProvider → TransportSpec) (provider : ApiProvider) :
    AttemptOutcome :=
  if numOptTruthy timeoutPerAttempt = false then
    match (transport provider).outcome with
    | .error msg =>
      { signalIssued := false, aborted := false, bodyReads := [],
        result := .error (.transport msg) }
    | .ok res =>
      { signalIssued := false, aborted := false,
        bodyReads := (parseResponse res provider).2,
        result := (parseResponse res provider).1 }
  else
    if timeoutPerAttempt.getD 0 < (transport provider).settleTime then
      { signalIssued := true, aborted := true, bodyReads := [],
        result := .error .timeout }
    else
      match (transport provider).outcome with
      | .error msg =>
        { signalIssued := true, aborted := false, bodyReads := [],
          result := .error (.transport msg) }
      | .ok res =>
        { signalIssued := true, aborted := false,
          bodyReads := (parseResponse res provider).2,
          result := (parseResponse res provider).1 }

/-- Array.prototype.splice(i, 0, x): insert x at index i, clamped to the end
when i exceeds the current length. -/
def spliceIn (i : Nat) (x : α) (l : List α) : List α :=
  l.take i ++ x :: l.drop i

/-- ApiRace.orderProviders: iterate the stored providers in original order;
a provider whose priority is falsy (absent or 0) is pushed at the end, any
other is spliced in at the index given by its priority. -/
def orderProviders (providers : List ApiProvider) : List ApiProvider :=
  providers.foldl
    (fun results provider =>
      if numOptTruthy provider.priority = false then results ++ [provider]
      else spliceIn (provider.priority.getD 0) provider results)
    []

/-- The two accepted provider-collection shapes of RaceInit: a plain array of
descriptors, or a keyed mapping whose values pair a descriptor with a priority
(modeled as the list of Object.values in key-insertion order). -/
inductive ProvidersInit where
  | arr (providers : List ApiProvider)
  | mapping (entries : List (ApiProvider × Nat))
deriving Repr

/-- ApiRace.shortProvidersList: for each mapping entry, write the priority
into the descriptor through its numeric setter and collect the descriptor. -/
def shortProvidersList (entries : List (ApiProvider × Nat)) :
    List ApiProvider :=
  entries.map (fun e => { e.1 with priority := some e.2 })

/-- The construction-time normalization of the providers option: an array is
kept as given, a mapping goes through shortProvidersList. -/
def normalizeProviders : ProvidersInit → List ApiProvider
  | .arr ps => ps
  | .mapping es => shortProvidersList es

/-- The RaceInit options record: the provider collection and the policy
options stored by the constructor.  maxAttempts, timeout and maxRetry are
carried because the source accepts them. -/
structure RaceInit where
  providers : ProvidersInit
  timeoutPerAttempt : Option Nat := none
  maxAttempts : Option Nat := none
  timeout : Option Nat := none
  retryOnFail : Bool := false
  maxRetry : Option Nat := none

/-- The attempt loop of ApiRace.run over an already-ordered provider list:
returns the providers attempted, in order, together with the outcome.  A
successful attempt breaks out with its response; a failed attempt either
continues with the next provider (retryOnFail) or rethrows the error; an
exhausted (or empty) sequence leaves result unset, which raises the
No providers available error. -/
def runLoop (init : RaceInit) (transport : ApiProvider → TransportSpec) :
    List ApiProvider → List ApiProvider × Except RaceError ProviderResponse
  | [] => ([], .error .noProviders)
  | p :: rest =>
    match (requestAttempt init.timeoutPerAttempt transport p).result with
    | .ok r => ([p], .ok r)
    | .error e =>
      if init.retryOnFail then
        let next := runLoop init transport rest
        (p :: next.1, next.2)
      else ([p], .error e)

/-- ApiRace.run: recompute the provider order and run the attempt loop. -/
def runRace (init : RaceInit) (transport : ApiProvider → TransportSpec) :
    List ApiProvider × Except RaceError ProviderResponse :=
  runLoop init transport (orderProviders (normalizeProviders init.providers))

/-- Whether the attempt for a provider would succeed under the given options
and transport. -/
def attemptOk (init : RaceInit) (transport : ApiProvider → TransportSpec)
    (p : ApiProvider) : Bool :=
  match (requestAttempt init.timeoutPerAttempt transport p).result with
  | .ok _ => true
  | .error _ => false

/-- The ordering rule exactly as the specification words it: iterating the
providers in original order, a provider with no priority is appended at the
end of the result sequence, and a provider with priority P (including P = 0)
is inserted at index P of the result sequence. -/
def specClaimOrder (providers : List ApiProvider) : List ApiProvider :=
  providers.foldl
    (fun results provider =>
      match provider.priority with
      | none => results ++ [provider]
      | some pr => spliceIn pr provider results)
    []

/-- The amended ordering rule: iterating the providers in original order, a
provider with no priority or with priority 0 is appended at the end of the
result sequence; a provider with nonzero priority P is inserted at index P of
the result sequence when P does not exceed its current length, and appended at
the end otherwise.  Colliding nonzero priorities therefore stack in reverse
encounter order at that index once the index is occupied. -/
def specAmendedOrder (acc : List ApiProvider) :
    List ApiProvider → List ApiProvider
  | [] => acc
  | p :: rest =>
    specAmendedOrder
      (match p.priority with
        | none => acc ++ [p]
        | some 0 => acc ++ [p]
        | some pr =>
          if pr ≤ acc.length then acc.take pr ++ p :: acc.drop pr
          else acc ++ [p])
      rest

theorem orderProviders_foldl_amended (providers : List ApiProvider) :
    ∀ acc : List ApiProvider,
      List.foldl
        (fun results provider =>
          if numOptTruthy provider.priority = false then results ++ [provider]
          else spliceIn (provider.priority.getD 0) provider results)
        acc providers
      = specAmendedOrder acc providers := by
  induction providers with
  | nil => intro acc; rfl
  | cons p rest ih =>
    intro acc
    rw [List.foldl_cons, ih]
    simp only [specAmendedOrder]
    congr 1
    match hp : p.priority with
    | none => simp [numOptTruthy, hp]
    | some 0 => simp [numOptTruthy, hp]
    | some (k + 1) =>
      simp only [numOptTruthy, hp]
      by_cases hle : k + 1 ≤ acc.length
      · simp [spliceIn, hle]
      · have h1 : acc.length ≤ k + 1 := by omega
        simp [spliceIn, hle, List.take_of_length_le h1,
          List.drop_of_length_le h1]

/-- C1 (amended): the attempt order computed on each run follows the amended
positional-insertion rule: providers with no priority or with priority 0 are
appended in encounter order, and a provider with nonzero priority P is
inserted at index P of the result sequence built so far (clamped to the end
when P exceeds its current length). -/
theorem c1_order_positional_insertion (providers : List ApiProvider) :
    orderProviders providers = specAmendedOrder [] providers :=
  orderProviders_foldl_amended providers []

/-- Concrete providers exhibiting the ordering divergence. -/
def cxX : ApiProvider :=
  { name := "X", priority := none, responseType := "application/json" }

def cxA : ApiProvider :=
  { name := "A", priority := some 1, responseType := "application/json" }

def cxB : ApiProvider :=
  { name := "B", priority := some 1, responseType := "application/json" }

def cxZ : ApiProvider :=
  { name := "Z", priority := some 0, responseType := "application/json" }

/-- C1 (counterexample): on the list [X(no priority), A(priority 1),
B(priority 1), Z(priority 0)], the code appends the priority-0 provider Z at
the end because 0 is falsy, producing [X, B, A, Z], while the order the claim
words describe inserts Z at index 0 and yields [Z, X, B, A]; the two differ.
Both orders also place B before A although A claimed priority 1 first, so
colliding priorities stack in reverse encounter order, not encounter order. -/
theorem c1_order_counterexample :
    orderProviders [cxX, cxA, cxB, cxZ] = [cxX, cxB, cxA, cxZ]
    ∧ specClaimOrder [cxX, cxA, cxB, cxZ] = [cxZ, cxX, cxB, cxA]
    ∧ orderProviders [cxX, cxA, cxB, cxZ]
        ≠ specClaimOrder [cxX, cxA, cxB, cxZ] := by
  refine ⟨rfl, rfl, ?_⟩
  decide

theorem runLoop_all_fail (init : RaceInit) (tr : ApiProvider → TransportSpec)
    (l : List ApiProvider) (hr : init.retryOnFail = true)
    (hf : ∀ p ∈ l, attemptOk init tr p = false) :
    runLoop init tr l = (l, .error .noProviders) := by
  induction l with
  | nil => rfl
  | cons p rest ih =>
    have hp := hf p (List.mem_cons_self p rest)
    unfold attemptOk at hp
    cases hres : (requestAttempt init.timeoutPerAttempt tr p).result with
    | ok r => rw [hres] at hp; simp at hp
    | error e =>
      simp only [runLoop, hres, hr, if_true]
      rw [ih (fun q hq => hf q (List.mem_cons_of_mem p hq))]

theorem runLoop_ok (init : RaceInit) (tr : ApiProvider → TransportSpec)
    (l : List ApiProvider) (r : ProviderResponse)
    (h : (runLoop init tr l).2 = .ok r) :
    ∃ p, l.find? (attemptOk init tr) = some p
      ∧ (requestAttempt init.timeoutPerAttempt tr p).result = .ok r
      ∧ (runLoop init tr l).1
          = l.takeWhile (fun q => !(attemptOk init tr q)) ++ [p] := by
  induction l with
  | nil => simp [runLoop] at h
  | cons p rest ih =>
    cases hres : (requestAttempt init.timeoutPerAttempt tr p).result with
    | ok r0 =>
      have hok : attemptOk init tr p = true := by
        unfold attemptOk; rw [hres]
      have hrl : runLoop init tr (p :: rest) = ([p], .ok r0) := by
        simp [runLoop, hres]
      rw [hrl] at h
      simp only at h
      cases h
      refine ⟨p, ?_, hres, ?_⟩
      · rw [List.find?_cons_of_pos _ hok]
      · rw [hrl]
        simp [List.takeWhile_cons, hok]
    | error e =>
      have hnot : attemptOk init tr p = false := by
        unfold attemptOk; rw [hres]
      by_cases hretry : init.retryOnFail
      · have hrl : runLoop init tr (p :: rest)
            = (p :: (runLoop init tr rest).1, (runLoop init tr rest).2) := by
          simp [runLoop, hres, hretry]
        rw [hrl] at h
        obtain ⟨q, hfind, hreq, hatt⟩ := ih h
        refine ⟨q, ?_, hreq, ?_⟩
        · rw [List.find?_cons_of_neg _ (by simp [hnot]), hfind]
        · rw [hrl]
          simp [List.takeWhile_cons, hnot, hatt]
      · have hrl : runLoop init tr (p :: rest) = ([p], .error e) := by
          simp [runLoop, hres, hretry]
        rw [hrl] at h
        simp at h

theorem runLoop_attempted_retry (init : RaceInit)
    (tr : ApiProvider → TransportSpec) (l : List ApiProvider)
    (hr : init.retryOnFail = true) :
    (runLoop init tr l).1
      = l.take ((l.takeWhile (fun q => !(attemptOk init tr q))).length + 1) := by
  induction l with
  | nil => rfl
  | cons p rest ih =>
    cases hres : (requestAttempt init.timeoutPerAttempt tr p).result with
    | ok r0 =>
      have hok : attemptOk init tr p = true := by
        unfold attemptOk; rw [hres]
      simp [runLoop, hres, List.takeWhile_cons, hok]
    | error e =>
      have hnot : attemptOk init tr p = false := by
        unfold attemptOk; rw [hres]
      simp [runLoop, hres, hr, List.takeWhile_cons, hnot, ih]

theorem runLoop_attempted_take (init : RaceInit)
    (tr : ApiProvider → TransportSpec) (l : List ApiProvider) :
    (runLoop init tr l).1 = l.take (runLoop init tr l).1.length := by
  induction l with
  | nil => rfl
  | cons p rest ih =>
    cases hres : (requestAttempt init.timeoutPerAttempt tr p).result with
    | ok r0 => simp [runLoop, hres]
    | error e =>
      by_cases hretry : init.retryOnFail
      · simp only [runLoop, hres, hretry, if_true, List.length_cons,
          List.take_succ_cons]
        rw [← ih]
      · simp [runLoop, hres, hretry]

theorem runLoop_no_retry_fail (init : RaceInit)
    (tr : ApiProvider → TransportSpec) (p : ApiProvider)
    (rest : List ApiProvider) (e : RaceError)
    (hr : init.retryOnFail = false)
    (he : (requestAttempt init.timeoutPerAttempt tr p).result = .error e) :
    runLoop init tr (p :: rest) = ([p], .error e) := by
  simp [runLoop, he, hr]

/-- C2: whenever run resolves, its value is the normalized response of the
first provider in the computed order whose attempt succeeds; the attempted
providers are exactly the failing ones before it followed by it, and they form
a prefix of the computed order, so no provider after the winner ever has its
transport call issued. -/
theorem c2_first_success_short_circuits (init : RaceInit)
    (tr : ApiProvider → TransportSpec) (r : ProviderResponse)
    (h : (runRace init tr).2 = .ok r) :
    ∃ p, (orderProviders (normalizeProviders init.providers)).find?
            (attemptOk init tr) = some p
      ∧ (requestAttempt init.timeoutPerAttempt tr p).result = .ok r
      ∧ (runRace init tr).1
          = (orderProviders (normalizeProviders init.providers)).takeWhile
              (fun q => !(attemptOk init tr q)) ++ [p]
      ∧ (runRace init tr).1
          = (orderProviders (normalizeProviders init.providers)).take
              (runRace init tr).1.length := by
  obtain ⟨p, h1, h2, h3⟩ := runLoop_ok init tr _ r h
  exact ⟨p, h1, h2, h3, runLoop_attempted_take init tr _⟩

/-- C3: with retryOnFail enabled, when every provider in the computed order
has a failing attempt, run rejects with the terminal No providers available
error and the attempted list is exactly the computed order, so every provider
was attempted exactly once. -/
theorem c3_exhausted_all_attempted (init : RaceInit)
    (tr : ApiProvider → TransportSpec)
    (hr : init.retryOnFail = true)
    (hf : ∀ p ∈ orderProviders (normalizeProviders init.providers),
        attemptOk init tr p = false) :
    runRace init tr
      = (orderProviders (normalizeProviders init.providers),
         .error .noProviders) :=
  runLoop_all_fail init tr _ hr hf

/-- C4: when retryOnFail is false, a failing first attempt terminates the race
with exactly that error and only that provider attempted; when retryOnFail is
true, the attempted list is the computed order truncated one past its longest
failing head, so each failed attempt is followed by the next provider in
order, each attempted exactly once. -/
theorem c4_failure_policy (init : RaceInit) (tr : ApiProvider → TransportSpec)
    (p : ApiProvider) (rest : List ApiProvider)
    (hord : orderProviders (normalizeProviders init.providers) = p :: rest) :
    (∀ e, init.retryOnFail = false →
        (requestAttempt init.timeoutPerAttempt tr p).result = .error e →
        runRace init tr = ([p], .error e))
    ∧ (init.retryOnFail = true →
        (runRace init tr).1
          = (p :: rest).take
              (((p :: rest).takeWhile
                  (fun q => !(attemptOk init tr q))).length + 1)) := by
  constructor
  · intro e hr he
    simp only [runRace, hord]
    exact runLoop_no_retry_fail init tr p rest e hr he
  · intro hr
    simp only [runRace, hord]
    exact runLoop_attempted_retry init tr (p :: rest) hr

theorem runLoop_options_congr (a b : RaceInit)
    (tr : ApiProvider → TransportSpec)
    (ht : a.timeoutPerAttempt = b.timeoutPerAttempt)
    (hr : a.retryOnFail = b.retryOnFail) (l : List ApiProvider) :
    runLoop a tr l = runLoop b tr l := by
  induction l with
  | nil => rfl
  | cons p rest ih =>
    unfold runLoop
    rw [ht, hr, ih]

/-- C9: the timeout, maxAttempts and maxRetry options are never consulted:
two configurations with the same providers, the same timeoutPerAttempt and
the same retryOnFail, however their timeout, maxAttempts and maxRetry differ,
attempt the same providers in the same order and produce the same outcome. -/
theorem c9_dead_options (a b : RaceInit) (tr : ApiProvider → TransportSpec)
    (hp : a.providers = b.providers)
    (ht : a.timeoutPerAttempt = b.timeoutPerAttempt)
    (hr : a.retryOnFail = b.retryOnFail) :
    runRace a tr = runRace b tr := by
  unfold runRace
  rw [hp]
  exact runLoop_options_congr a b tr ht hr _

/-- C10: a coordinator built over an empty provider collection, array-shaped
or mapping-shaped, rejects every run with the No providers available error and
attempts no provider, so no transport call is ever issued. -/
theorem c10_empty_providers (init : RaceInit)
    (tr : ApiProvider → TransportSpec)
    (h : init.providers = .arr [] ∨ init.providers = .mapping []) :
    runRace init tr = ([], .error .noProviders) := by
  rcases h with h | h <;>
    simp [runRace, h, normalizeProviders, shortProvidersList, orderProviders,
      runLoop]

theorem requestAttempt_signal (t : Option Nat)
    (tr : ApiProvider → TransportSpec) (p : ApiProvider) :
    (requestAttempt t tr p).signalIssued = numOptTruthy t := by
  unfold requestAttempt
  rcases hnt : numOptTruthy t with _ | _
  · rw [if_pos rfl]
    cases (tr p).outcome <;> rfl
  · rw [if_neg (by simp)]
    split
    · rfl
    · cases (tr p).outcome <;> rfl

/-- C5 (amended): an attempt issues its transport call with a cancellation
signal exactly when timeoutPerAttempt is set to a nonzero duration; with such
a duration n, if the timer expires strictly before the transport settles the
signal is aborted and the attempt fails with the timeout error, and if the
transport settles no later than n the attempt is decided by the transport
outcome exactly as it would be without any timer, with no abort. -/
theorem c5_timeout_race (t : Option Nat) (tr : ApiProvider → TransportSpec)
    (p : ApiProvider) :
    ((requestAttempt t tr p).signalIssued = true ↔ ∃ n, t = some n ∧ n ≠ 0)
    ∧ (∀ n, t = some n → n ≠ 0 → n < (tr p).settleTime →
        (requestAttempt t tr p).aborted = true
        ∧ (requestAttempt t tr p).result = .error .timeout)
    ∧ (∀ n, t = some n → n ≠ 0 → (tr p).settleTime ≤ n →
        (requestAttempt t tr p).aborted = false
        ∧ (requestAttempt t tr p).result
            = (requestAttempt none tr p).result) := by
  refine ⟨?_, ?_, ?_⟩
  · rw [requestAttempt_signal]
    cases t with
    | none => simp [numOptTruthy]
    | some n => simp [numOptTruthy]
  · intro n hn hnz hlt
    subst hn
    have hlt2 : Option.getD (some n) 0 < (tr p).settleTime := by
      simp only [Option.getD_some]; exact hlt
    unfold requestAttempt
    rw [if_neg (by simp [numOptTruthy, hnz]), if_pos hlt2]
    exact ⟨rfl, rfl⟩
  · intro n hn hnz hle
    subst hn
    have hnlt : ¬ (Option.getD (some n) 0 < (tr p).settleTime) := by
      simp only [Option.getD_some]; omega
    unfold requestAttempt
    rw [if_neg (by simp [numOptTruthy, hnz]), if_neg hnlt,
      if_pos (show numOptTruthy none = false from rfl)]
    cases (tr p).outcome <;> exact ⟨rfl, rfl⟩

/-- The provider of the concrete sample in the specification. -/
def exP1 : ApiProvider :=
  { name := "p1", priority := none, responseType := "application/json" }

/-- The mock transport response of the concrete sample: status 200, header
x-id: 7, JSON body obj a:1. -/
def exJsonRes : RawResponse :=
  { status := 200, headers := [("x-id", "7")],
    jsonBody := .ok (.obj [("a", .num 1)]), textBody := "",
    formBody := .error "not a form body" }

/-- C6: the normalized payload of every successful parse matches the declared
responseType: application/json yields the parsed JSON body, text/plain wraps
the raw body text under the fixed key $text, text/xml wraps it under $xml with
no XML parsing, and application/x-www-form-urlencoded yields the form entries
with each value coerced to a string; in the concrete sample, a JSON provider
named p1 with a status-200 response carrying body obj a:1 and header x-id: 7
yields exactly the claimed ProviderResponse. -/
theorem c6_response_normalization (res : RawResponse) (p : ApiProvider) :
    (p.responseType = "application/json" → ∀ v, res.jsonBody = .ok v →
        (parseResponse res p).1
          = .ok ⟨v, p.name, res.status, collectHeaders res.headers⟩)
    ∧ (p.responseType = "text/plain" →
        (parseResponse res p).1
          = .ok ⟨.obj [("$text", .str res.textBody)], p.name, res.status,
              collectHeaders res.headers⟩)
    ∧ (p.responseType = "text/xml" →
        (parseResponse res p).1
          = .ok ⟨.obj [("$xml", .str res.textBody)], p.name, res.status,
              collectHeaders res.headers⟩)
    ∧ (p.responseType = "application/x-www-form-urlencoded" →
        ∀ es, res.formBody = .ok es →
        (parseResponse res p).1
          = .ok ⟨.obj (formPayload es), p.name, res.status,
              collectHeaders res.headers⟩)
    ∧ parseResponse exJsonRes exP1
        = (.ok ⟨.obj [("a", .num 1)], "p1", 200, [("x-id", "7")]⟩,
           [.jsonRead]) := by
  refine ⟨?_, ?_, ?_, ?_, rfl⟩
  · intro h v hv
    simp [parseResponse, h, hv]
  · intro h
    simp [parseResponse, h]
  · intro h
    simp [parseResponse, h]
  · intro h es hes
    simp [parseResponse, h, hes]

/-- C7: a declared responseType of application/octet-stream always fails with
the octet-stream not-supported error, x-application/protobuf with the
protobuf not-supported error, and any unrecognized responseType with the
invalid-response-type error; in all three cases no body-reading operation of
the response is performed. -/
theorem c7_unsupported_types (res : RawResponse) (p : ApiProvider) :
    (p.responseType = "application/octet-stream" →
        parseResponse res p = (.error .octetNotSupported, []))
    ∧ (p.responseType = "x-application/protobuf" →
        parseResponse res p = (.error .protobufNotSupported, []))
    ∧ (p.responseType ≠ "application/json" →
       p.responseType ≠ "application/octet-stream" →
       p.responseType ≠ "application/x-www-form-urlencoded" →
       p.responseType ≠ "text/plain" →
       p.responseType ≠ "x-application/protobuf" →
       p.responseType ≠ "text/xml" →
        parseResponse res p = (.error .invalidResponseType, [])) := by
  refine ⟨?_, ?_, ?_⟩
  · intro h
    simp [parseResponse, h]
  · intro h
    simp [parseResponse, h]
  · intro h1 h2 h3 h4 h5 h6
    simp only [parseResponse]
    rw [if_neg (by simp [h1]), if_neg (by simp [h2]), if_neg (by simp [h3]),
      if_neg (by simp [h4]), if_neg (by simp [h5]), if_neg (by simp [h6])]

/-- C8: every response the parser turns into a ProviderResponse, whatever the
declared content type, carries responseHeaders collected from the header
iteration of the transport response and responseStatus equal to its numeric
HTTP status. -/
theorem c8_headers_status (res : RawResponse) (p : ApiProvider)
    (r : ProviderResponse) (h : (parseResponse res p).1 = .ok r) :
    r.responseHeaders = collectHeaders res.headers
    ∧ r.responseStatus = res.status := by
  unfold parseResponse at h
  repeat' split at h
  all_goals
    first
      | exact Except.noConfusion h
      | (obtain rfl := Except.ok.inj h; exact ⟨rfl, rfl⟩)

/-- A raw response used by the timeout counterexample. -/
def cx5Res : RawResponse :=
  { status := 200, headers := [], jsonBody := .ok .null, textBody := "",
    formBody := .ok [] }

def cx5P : ApiProvider :=
  { name := "slow", priority := none, responseType := "application/json" }

/-- A transport that only settles at time 5. -/
def cx5Tr : ApiProvider → TransportSpec :=
  fun _ => { settleTime := 5, outcome := .ok cx5Res }

/-- C5 (counterexample): with timeoutPerAttempt configured as 0, the option is
falsy, so the transport call is issued without any cancellation signal and no
timer races it, although the transport only settles at time 5; the attempt is
decided by the transport outcome instead of failing with a timeout. -/
theorem c5_timeout_counterexample :
    (requestAttempt (some 0) cx5Tr cx5P).signalIssued = false
    ∧ (requestAttempt (some 0) cx5Tr cx5P).aborted = false
    ∧ (requestAttempt (some 0) cx5Tr cx5P).result
        = .ok ⟨.null, "slow", 200, []⟩
    ∧ 0 < (cx5Tr cx5P).settleTime := by
  exact ⟨rfl, rfl, rfl, by decide⟩

def w2P : ApiProvider :=
  { name := "w2", priority := none, responseType := "text/plain" }

def w2Res : RawResponse :=
  { status := 200, headers := [("h", "v")], jsonBody := .error "no json",
    textBody := "hello", formBody := .error "no form" }

def w2Tr : ApiProvider → TransportSpec :=
  fun _ => { settleTime := 0, outcome := .ok w2Res }

def w2Init : RaceInit := { providers := .arr [w2P] }

def w2R : ProviderResponse :=
  ⟨.obj [("$text", .str "hello")], "w2", 200, [("h", "v")]⟩

/-- Witness for C2 at a concrete one-provider race that succeeds. -/
theorem c2_witness :
    ∃ p, (orderProviders (normalizeProviders w2Init.providers)).find?
            (attemptOk w2Init w2Tr) = some p
      ∧ (requestAttempt w2Init.timeoutPerAttempt w2Tr p).result = .ok w2R
      ∧ (runRace w2Init w2Tr).1
          = (orderProviders (normalizeProviders w2Init.providers)).takeWhile
              (fun q => !(attemptOk w2Init w2Tr q)) ++ [p]
      ∧ (runRace w2Init w2Tr).1
          = (orderProviders (normalizeProviders w2Init.providers)).take
              (runRace w2Init w2Tr).1.length :=
  c2_first_success_short_circuits w2Init w2Tr w2R rfl

def w3P : ApiProvider :=
  { name := "w3a", priority := none, responseType := "application/json" }

def w3Q : ApiProvider :=
  { name := "w3b", priority := none, responseType := "application/json" }

def w3Tr : ApiProvider → TransportSpec :=
  fun _ => { settleTime := 0, outcome := .error "connection refused" }

def w3Init : RaceInit :=
  { providers := .arr [w3P, w3Q], retryOnFail := true }

/-- Witness for C3: two providers, both failing, retryOnFail on. -/
theorem c3_witness :
    runRace w3Init w3Tr
      = (orderProviders (normalizeProviders w3Init.providers),
         .error .noProviders) :=
  c3_exhausted_all_attempted w3Init w3Tr rfl (by decide)

def w4P : ApiProvider :=
  { name := "w4a", priority := none, responseType := "application/json" }

def w4Q : ApiProvider :=
  { name := "w4b", priority := none, responseType := "application/json" }

def w4Tr : ApiProvider → TransportSpec :=
  fun _ => { settleTime := 0, outcome := .error "boom" }

def w4Init : RaceInit := { providers := .arr [w4P, w4Q] }

/-- Witness for C4 at a concrete two-provider order. -/
theorem c4_witness :
    (∀ e, w4Init.retryOnFail = false →
        (requestAttempt w4Init.timeoutPerAttempt w4Tr w4P).result = .error e →
        runRace w4Init w4Tr = ([w4P], .error e))
    ∧ (w4Init.retryOnFail = true →
        (runRace w4Init w4Tr).1
          = ([w4P, w4Q]).take
              ((([w4P, w4Q]).takeWhile
                  (fun q => !(attemptOk w4Init w4Tr q))).length + 1)) :=
  c4_failure_policy w4Init w4Tr w4P [w4Q] rfl

def w5P : ApiProvider :=
  { name := "w5", priority := none, responseType := "application/json" }

def w5Res : RawResponse :=
  { status := 200, headers := [], jsonBody := .ok .null, textBody := "",
    formBody := .ok [] }

def w5Tr : ApiProvider → TransportSpec :=
  fun _ => { settleTime := 5, outcome := .ok w5Res }

/-- Witness for C5: a 2-tick timer against a transport settling at tick 5
aborts the signal and fails the attempt with the timeout error. -/
theorem c5_witness :
    (requestAttempt (some 2) w5Tr w5P).aborted = true
    ∧ (requestAttempt (some 2) w5Tr w5P).result = .error .timeout :=
  (c5_timeout_race (some 2) w5Tr w5P).2.1 2 rfl (by decide) (by decide)

/-- Witness for C6 at the concrete sample response. -/
theorem c6_witness :
    (parseResponse exJsonRes exP1).1
      = .ok ⟨.obj [("a", .num 1)], exP1.name, exJsonRes.status,
          collectHeaders exJsonRes.headers⟩ :=
  (c6_response_normalization exJsonRes exP1).1 rfl (.obj [("a", .num 1)]) rfl

def w7P : ApiProvider :=
  { name := "w7", priority := none,
    responseType := "application/octet-stream" }

def w7Res : RawResponse :=
  { status := 204, headers := [], jsonBody := .error "no json",
    textBody := "", formBody := .error "no form" }

/-- Witness for C7 at a concrete octet-stream provider. -/
theorem c7_witness :
    parseResponse w7Res w7P = (.error .octetNotSupported, []) :=
  (c7_unsupported_types w7Res w7P).1 rfl

def w8P : ApiProvider :=
  { name := "w8", priority := none, responseType := "text/xml" }

def w8Res : RawResponse :=
  { status := 200, headers := [("k", "v")], jsonBody := .error "no json",
    textBody := "<a/>", formBody := .error "no form" }

def w8R : ProviderResponse :=
  ⟨.obj [("$xml", .str "<a/>")], "w8", 200, [("k", "v")]⟩

/-- Witness for C8 at a concrete XML response. -/
theorem c8_witness :
    w8R.responseHeaders = collectHeaders w8Res.headers
    ∧ w8R.responseStatus = w8Res.status :=
  c8_headers_status w8Res w8P w8R rfl

def w9P : ApiProvider :=
  { name := "w9", priority := none, responseType := "text/plain" }

def w9Tr : ApiProvider → TransportSpec :=
  fun _ => { settleTime := 0, outcome := .error "down" }

def w9A : RaceInit :=
  { providers := .arr [w9P], timeout := some 1000, maxAttempts := some 3,
    maxRetry := some 7 }

def w9B : RaceInit := { providers := .arr [w9P] }

/-- Witness for C9: two configurations differing only in timeout, maxAttempts
and maxRetry race identically. -/
theorem c9_witness : runRace w9A w9Tr = runRace w9B w9Tr :=
  c9_dead_options w9A w9B w9Tr rfl rfl rfl

def w10Init : RaceInit := { providers := .arr [] }

def w10Tr : ApiProvider → TransportSpec :=
  fun _ => { settleTime := 0, outcome := .error "unreachable" }

/-- Witness for C10 at a concrete empty provider array. -/
theorem c10_witness : runRace w10Init w10Tr = ([], .error .noProviders) :=
  c10_empty_providers w10Init w10Tr (.inl rfl)
